import Mathlib

/-!
Shallow embedding of the exoplanet-classifier Flask backend (`app.py`).

The `/predict` handler pipeline is modelled as a pure Lean function over
explicit capability records (classifier, scaler, label encoder) and an
explicit request body.  Python floats are modelled as rationals (`ℚ`);
Python dicts as association lists with insertion order; a dict lookup of a
missing key (`KeyError`) and a failed `float()` coercion (`ValueError`)
are modelled with `Except`.
-/

/-- Whether `p` is a leading segment of `l` (list-of-chars level). -/
def startsWithL : List Char → List Char → Bool
  | [], _ => true
  | _ :: _, [] => false
  | p :: ps, c :: cs => p = c && startsWithL ps cs

/-- Whether `sub` occurs contiguously inside `l`
(list-level embedding of Python substring membership). -/
def containsL (sub : List Char) : List Char → Bool
  | [] => sub.isEmpty
  | c :: cs => startsWithL sub (c :: cs) || containsL sub cs

/-- Python `sub in s` on strings. -/
def strContains (s sub : String) : Bool :=
  containsL sub.toList s.toList

/-- Strip leading and trailing whitespace, embedding Python `str.strip()`. -/
def trimL (l : List Char) : List Char :=
  ((l.dropWhile Char.isWhitespace).reverse.dropWhile Char.isWhitespace).reverse

/-- Python `label.upper().strip()` : uppercase each character, then strip. -/
def upperStrip (s : String) : String :=
  String.mk (trimL (s.toList.map Char.toUpper))

/-- Embeds `map_to_main_category` from `app.py`: groups detailed exoplanet
classifications into 3 main categories by keyword containment, with a
pass-through fallback returning the original label. -/
def map_to_main_category (label : String) : String :=
  let label_upper := upperStrip label
  if strContains label_upper "CONFIRMED" then
    "Confirmed Planet"
  else if ["CANDIDATE", "APC", "CP", "KP"].any (fun k => strContains label_upper k) then
    "Candidate Planet"
  else if ["FALSE", "FA", "REFUTED", "NOT"].any (fun k => strContains label_upper k) then
    "False Positive (Not a Planet)"
  else
    label

/-- The category decision function as worded in the spec (§4.3): applied to the
uppercased, trimmed raw label, exact priority order, first match wins, with
rule 2 and rule 3 keyword alternatives spelled out as disjunctions. -/
def specCategory (raw : String) : String :=
  let u := upperStrip raw
  if strContains u "CONFIRMED" then
    "Confirmed Planet"
  else if strContains u "CANDIDATE" || strContains u "APC" ||
      strContains u "CP" || strContains u "KP" then
    "Candidate Planet"
  else if strContains u "FALSE" || strContains u "FA" ||
      strContains u "REFUTED" || strContains u "NOT" then
    "False Positive (Not a Planet)"
  else
    raw

instance {ε α : Type} [DecidableEq ε] [DecidableEq α] : DecidableEq (Except ε α) := fun x y =>
  match x, y with
  | .error a, .error b =>
    if h : a = b then .isTrue (by rw [h]) else .isFalse (fun hh => by cases hh; exact h rfl)
  | .ok a, .ok b =>
    if h : a = b then .isTrue (by rw [h]) else .isFalse (fun hh => by cases hh; exact h rfl)
  | .error _, .ok _ => .isFalse (fun hh => by cases hh)
  | .ok _, .error _ => .isFalse (fun hh => by cases hh)

/-- A Python dict from label strings to float probabilities, in insertion order. -/
abbrev LDist := List (String × ℚ)

/-- Total probability mass of a distribution. -/
def distSum (d : LDist) : ℚ :=
  (d.map Prod.snd).sum

/-- Embedding of `CLASS_LABELS` from `app.py` in the fallback branch (no label encoder
loaded): the static index→coarse-category dict; `none` models a key that is
absent (so that direct indexing raises `KeyError`). -/
def CLASS_LABELS (i : Int) : Option String :=
  if i = 0 then some "False Positive (Not a Planet)"
  else if i = 1 then some "Candidate Planet"
  else if i = 2 then some "Confirmed Planet"
  else none

/-- The initial `grouped_confidence` dict of `predict`: the three coarse
buckets, each 0.0, in source order. -/
def grouped_init : LDist :=
  [("Confirmed Planet", 0), ("Candidate Planet", 0),
   ("False Positive (Not a Planet)", 0)]

/-- Python `g[k] += p` on a dict with distinct keys: update the entry for `k`,
or raise `KeyError k` when the key is absent. -/
def bucketAdd : LDist → String → ℚ → Except String LDist
  | [], k, _ => .error k
  | (k2, v) :: rest, k, p =>
    if k2 = k then .ok ((k2, v + p) :: rest)
    else
      match bucketAdd rest k p with
      | .error e => .error e
      | .ok r => .ok ((k2, v) :: r)

/-- The aggregation loop of `predict`: for every `(label, prob)` of the
detailed distribution, `grouped_confidence[map_to_main_category(label)] += prob`. -/
def groupSum (g : LDist) : LDist → Except String LDist
  | [] => .ok g
  | (label, prob) :: rest =>
    match bucketAdd g (map_to_main_category label) prob with
    | .error e => .error e
    | .ok g2 => groupSum g2 rest

/-- Grouped (coarse) confidence computed from a detailed distribution,
starting from the three zero buckets. -/
def groupedConfidence (detailed : LDist) : Except String LDist :=
  groupSum grouped_init detailed

/-- Total mass of the grouped confidence, when the aggregation succeeds. -/
def groupedSumOf (detailed : LDist) : Except String ℚ :=
  (groupedConfidence detailed).map distSum

/-- Does a string name one of the three coarse categories? -/
def isCoarse (s : String) : Bool :=
  s = "Confirmed Planet" || s = "Candidate Planet" ||
    s = "False Positive (Not a Planet)"

/-- Every label of the distribution is grouped into a coarse bucket
(no label reaches the pass-through fallback). -/
def allCoarse (d : LDist) : Bool :=
  d.all (fun p => isCoarse (map_to_main_category p.1))

/-- Did the computation raise? -/
def isErr {α : Type} : Except String α → Bool
  | .error _ => true
  | .ok _ => false

/-- A JSON field value as seen by `float(...)`: either it coerces to a float
`q`, or `float` raises `ValueError` with message `msg` (a non-numeric
string), or `float` raises `TypeError` with message `msg` (a JSON null,
array or object — anything that is not a string or a real number). -/
inductive JVal where
  | num (q : ℚ)
  | bad (msg : String)
  | nonNum (msg : String)
deriving DecidableEq

/-- An exception raised by `float(...)`: the handler's `except ValueError`
catches only the first kind; the second falls through to the generic
`except Exception`. -/
inductive PyErr where
  | valueError (msg : String)
  | typeError (msg : String)
deriving DecidableEq

/-- The validated feature triple (echoed back in the response). -/
structure Features where
  orbital_period : ℚ
  transit_duration : ℚ
  planetary_radius : ℚ
deriving DecidableEq

/-- The scaler capability: `scaler.transform`. -/
structure Scaler where
  transform : Features → Features

/-- The classifier capability: `model.predict` (first entry of the returned
array) and, optionally, `model.predict_proba` (first row); `predict_proba =
none` models the `AttributeError` raised when the attribute is missing. -/
structure Model where
  predict : Features → Int
  predict_proba : Option (Features → List ℚ)

/-- The label-decoding capability: `label_encoder.inverse_transform` on a
single index. -/
structure LabelEncoder where
  inverse_transform : Int → String

/-- The `confidence` value of the response: either the
`{"detailed": ..., "grouped": ...}` dict (label encoder present) or the
coarse `{CLASS_LABELS[i]: prob}` dict (label encoder absent). -/
inductive Confidence where
  | detailedGrouped (detailed : LDist) (grouped : LDist)
  | coarse (d : LDist)
deriving DecidableEq

/-- The JSON body of a 200 response from `/predict`. -/
structure PredictResult where
  prediction : String
  input : Features
  confidence : Option Confidence
deriving DecidableEq

/-- An HTTP response from the `/predict` handler: 200 with a result body,
400 with an error message, or 500 with an error message. -/
inductive Resp where
  | ok (result : PredictResult)
  | clientError (msg : String)
  | serverError (msg : String)
deriving DecidableEq

/-- Is the response a 500? -/
def isServerError : Resp → Bool
  | .serverError _ => true
  | _ => false

/-- Python `field in data` on the request dict. -/
def hasField (data : List (String × JVal)) (k : String) : Bool :=
  data.any (fun p => p.1 = k)

/-- Python `data[field]` (only used after the presence check). -/
def getField (data : List (String × JVal)) (k : String) : JVal :=
  (((data.find? (fun p => p.1 = k)).map Prod.snd).getD (JVal.bad ""))

/-- Python `float(v)`: the coerced value, or a raised `ValueError` (bad
string) or `TypeError` (null/array/object). -/
def pyFloat : JVal → Except PyErr ℚ
  | .num q => .ok q
  | .bad m => .error (.valueError m)
  | .nonNum m => .error (.typeError m)

/-- Python dict insertion `d[k] = v` (overwrite if present, append if new). -/
def dictInsert (d : LDist) (k : String) (v : ℚ) : LDist :=
  if d.any (fun p => p.1 = k) then d.map (fun p => if p.1 = k then (p.1, v) else p)
  else d ++ [(k, v)]

/-- The `detailed_confidence` dict comprehension of `predict`:
`{label_encoder.inverse_transform([i])[0]: float(prob) for i, prob in
enumerate(probabilities)}`. -/
def detailedConfidenceOf (enc : LabelEncoder) (probabilities : List ℚ) : LDist :=
  probabilities.enum.foldl
    (fun d ip => dictInsert d (enc.inverse_transform (Int.ofNat ip.1)) ip.2) []

/-- The fallback confidence dict comprehension of `predict`:
`{CLASS_LABELS[i]: float(prob) for i, prob in enumerate(probabilities)}`;
direct indexing of `CLASS_LABELS` raises `KeyError` on an unknown index. -/
def coarseConfidenceOf (probabilities : List ℚ) : Except String LDist :=
  probabilities.enum.foldlM
    (fun d ip =>
      match CLASS_LABELS (Int.ofNat ip.1) with
      | none => .error (toString ip.1)
      | some k => .ok (dictInsert d k ip.2)) []

/-- Python `features = scaler.transform(features) if scaler is not None else features`. -/
def scaledFeatures (scaler : Option Scaler) (f : Features) : Features :=
  match scaler with
  | some sc => sc.transform f
  | none => f

/-- The `prediction_label` computation of `predict`: decode and group via the
label encoder when present, else look the index up in the static
`CLASS_LABELS` dict with default `"Unknown"` (`CLASS_LABELS.get`). -/
def predictionLabelOf (label_encoder : Option LabelEncoder) (prediction : Int) : String :=
  match label_encoder with
  | some enc => map_to_main_category (enc.inverse_transform prediction)
  | none => (CLASS_LABELS prediction).getD "Unknown"

/-- The `try: probabilities = model.predict_proba ... except AttributeError:
confidence = None` block of `predict`.  A raised `KeyError` (modelled as
`.error`) is *not* caught here: it propagates to the handler's outer
`except Exception`. -/
def confidenceOf (model : Model) (label_encoder : Option LabelEncoder)
    (features : Features) : Except String (Option Confidence) :=
  match model.predict_proba with
  | none => .ok none
  | some proba =>
    let probabilities := proba features
    match label_encoder with
    | some enc =>
      let detailed := detailedConfidenceOf enc probabilities
      match groupedConfidence detailed with
      | .error e => .error e
      | .ok grouped => .ok (some (.detailedGrouped detailed grouped))
    | none =>
      match coarseConfidenceOf probabilities with
      | .error e => .error e
      | .ok d => .ok (some (.coarse d))

/-- Python truthiness of `confidence` in `if confidence:` — `None` and the
empty dict are falsy. -/
def confTruthy : Option Confidence → Bool
  | none => false
  | some (.detailedGrouped _ _) => true
  | some (.coarse d) => !d.isEmpty

/-- The `/predict` handler of `app.py`, stage by stage: model-loaded check,
body-presence check, required-field checks in order, `float` coercions in
order, positivity checks in order, optional scaling, inference, label
decoding, optional confidence, response assembly.  `ValueError` maps to a
400 `"Invalid input value: ..."`; any other exception — a `TypeError` from
`float(...)` on a null/array/object field, or a `KeyError` from the bucket
dict (whose payload we take as the message) — to a 500
`"Prediction error: ..."`. -/
def predictHandler (model? : Option Model) (scaler : Option Scaler)
    (label_encoder : Option LabelEncoder)
    (body : Option (List (String × JVal))) : Resp :=
  match model? with
  | none => .serverError "Model not loaded. Please ensure model.pkl exists."
  | some model =>
    match body with
    | none => .clientError "No data provided"
    | some data =>
      if data.isEmpty then .clientError "No data provided"
      else if !hasField data "orbital_period" then
        .clientError "Missing required field: orbital_period"
      else if !hasField data "transit_duration" then
        .clientError "Missing required field: transit_duration"
      else if !hasField data "planetary_radius" then
        .clientError "Missing required field: planetary_radius"
      else
        match pyFloat (getField data "orbital_period") with
        | .error (.valueError m) => .clientError ("Invalid input value: " ++ m)
        | .error (.typeError m) => .serverError ("Prediction error: " ++ m)
        | .ok orbital_period =>
          match pyFloat (getField data "transit_duration") with
          | .error (.valueError m) => .clientError ("Invalid input value: " ++ m)
          | .error (.typeError m) => .serverError ("Prediction error: " ++ m)
          | .ok transit_duration =>
            match pyFloat (getField data "planetary_radius") with
            | .error (.valueError m) => .clientError ("Invalid input value: " ++ m)
            | .error (.typeError m) => .serverError ("Prediction error: " ++ m)
            | .ok planetary_radius =>
              if orbital_period ≤ 0 then .clientError "Orbital period must be positive"
              else if transit_duration ≤ 0 then .clientError "Transit duration must be positive"
              else if planetary_radius ≤ 0 then .clientError "Planetary radius must be positive"
              else
                let input : Features := ⟨orbital_period, transit_duration, planetary_radius⟩
                let features := scaledFeatures scaler input
                let prediction := model.predict features
                let prediction_label := predictionLabelOf label_encoder prediction
                match confidenceOf model label_encoder features with
                | .error e => .serverError ("Prediction error: " ++ e)
                | .ok confidence =>
                  .ok { prediction := prediction_label
                        input := input
                        confidence := if confTruthy confidence then confidence else none }

/-- The process-wide artifacts, loaded once at startup and read by every
request (`model`, `scaler`, `label_encoder` module globals). -/
structure ServerState where
  model : Option Model
  scaler : Option Scaler
  label_encoder : Option LabelEncoder

/-- One handled request: the handler reads the artifacts and returns a
response; it mutates no process state, so the state is returned unchanged. -/
def handleRequest (st : ServerState) (body : Option (List (String × JVal))) :
    Resp × ServerState :=
  (predictHandler st.model st.scaler st.label_encoder body, st)

/-- A request body with the three fields present, float-coercible and
positive, bundled for reuse in pipeline theorems. -/
abbrev validBody (data : List (String × JVal)) (o t r : ℚ) : Prop :=
  data.isEmpty = false ∧
  hasField data "orbital_period" = true ∧
  hasField data "transit_duration" = true ∧
  hasField data "planetary_radius" = true ∧
  getField data "orbital_period" = JVal.num o ∧
  getField data "transit_duration" = JVal.num t ∧
  getField data "planetary_radius" = JVal.num r ∧
  0 < o ∧ 0 < t ∧ 0 < r

/-- A concrete well-formed request body: three positive numeric fields. -/
def dEx : List (String × JVal) :=
  [("orbital_period", .num 1), ("transit_duration", .num 2), ("planetary_radius", .num 3)]

/-- The spec's negative example body: `{"orbital_period": -5,
"transit_duration": 2, "planetary_radius": 1}`. -/
def dNeg : List (String × JVal) :=
  [("orbital_period", .num (-5)), ("transit_duration", .num 2), ("planetary_radius", .num 1)]

/-- The spec's negative-example body with its first field replaced by a JSON
null: `{"orbital_period": null, "transit_duration": 2, "planetary_radius":
1}` — present but not coercible, and `float(None)` raises `TypeError`, not
`ValueError`. -/
def dNull : List (String × JVal) :=
  [("orbital_period",
    .nonNum "float() argument must be a string or a real number"),
   ("transit_duration", .num 2), ("planetary_radius", .num 1)]

/-- The spec's negative-example body with its first field replaced by a
non-numeric string: `float("abc")` raises `ValueError`. -/
def dBadStr : List (String × JVal) :=
  [("orbital_period", .bad "could not convert string to float: abc"),
   ("transit_duration", .num 2), ("planetary_radius", .num 1)]

/-- A classifier that predicts class index 1 and has no `predict_proba`. -/
def mEx : Model := ⟨fun _ => 1, none⟩

/-- A classifier that predicts class index 5 (outside `{0, 1, 2}`) and has no
`predict_proba`. -/
def mFive : Model := ⟨fun _ => 5, none⟩

/-- A probability row assigning all mass to class 0. -/
def pfX : Features → List ℚ := fun _ => [1]

/-- A classifier predicting class 0 with probability output `pfX`. -/
def mProbaX : Model := ⟨fun _ => 0, some pfX⟩

/-- A label encoder decoding every index to `"ZZZ"`, a raw label that matches
none of the three keyword groups. -/
def encX : LabelEncoder := ⟨fun _ => "ZZZ"⟩

/-- A concrete detailed distribution summing to 1 whose labels all group into
coarse buckets. -/
def dW : LDist := [("CONFIRMED", 1), ("FA", 0)]

/-! ## Helper lemmas -/

theorem bucketAdd_ok_of_mem (g : LDist) (k : String) (p : ℚ)
    (hk : k ∈ g.map Prod.fst) :
    ∃ g', bucketAdd g k p = .ok g' ∧ distSum g' = distSum g + p ∧
      g'.map Prod.fst = g.map Prod.fst := by
  induction g with
  | nil => simp at hk
  | cons hd tl ih =>
    obtain ⟨k2, v⟩ := hd
    by_cases hkk : k2 = k
    · refine ⟨(k2, v + p) :: tl, ?_, ?_, ?_⟩
      · simp [bucketAdd, hkk]
      · simp [distSum]; ring
      · simp
    · have hk' : k ∈ tl.map Prod.fst := by
        rcases List.mem_cons.mp hk with h | h
        · exact absurd h.symm hkk
        · exact h
      obtain ⟨g', hg', hsum, hkeys⟩ := ih hk'
      refine ⟨(k2, v) :: g', ?_, ?_, ?_⟩
      · simp [bucketAdd, hkk, hg']
      · simp [distSum] at hsum ⊢; rw [hsum]; ring
      · simp [hkeys]

theorem bucketAdd_error_of_not_mem (g : LDist) (k : String) (p : ℚ)
    (hk : ¬ k ∈ g.map Prod.fst) :
    bucketAdd g k p = .error k := by
  induction g with
  | nil => rfl
  | cons hd tl ih =>
    obtain ⟨k2, v⟩ := hd
    rw [List.map_cons, List.mem_cons] at hk
    push_neg at hk
    obtain ⟨hne, htl⟩ := hk
    simp [bucketAdd, Ne.symm hne, ih htl]

theorem groupSum_ok (d : LDist) :
    ∀ g : LDist, (∀ pr ∈ d, map_to_main_category pr.1 ∈ g.map Prod.fst) →
    ∃ g', groupSum g d = .ok g' ∧ distSum g' = distSum g + distSum d ∧
      g'.map Prod.fst = g.map Prod.fst := by
  induction d with
  | nil =>
    intro g _
    exact ⟨g, rfl, by simp [distSum], rfl⟩
  | cons hd tl ih =>
    intro g hmem
    obtain ⟨label, prob⟩ := hd
    obtain ⟨g2, hg2, hsum2, hkeys2⟩ :=
      bucketAdd_ok_of_mem g (map_to_main_category label) prob
        (hmem (label, prob) (List.mem_cons_self _ _))
    obtain ⟨g', hg', hsum', hkeys'⟩ := ih g2 (by
      intro pr hpr
      rw [hkeys2]
      exact hmem pr (List.mem_cons_of_mem _ hpr))
    refine ⟨g', ?_, ?_, ?_⟩
    · simp [groupSum, hg2, hg']
    · rw [hsum', hsum2]; simp [distSum]; ring
    · rw [hkeys', hkeys2]

theorem mem_grouped_init_keys (s : String) :
    s ∈ grouped_init.map Prod.fst ↔ isCoarse s = true := by
  simp [grouped_init, isCoarse]
  tauto

theorem isErr_iff {α : Type} (x : Except String α) :
    isErr x = true ↔ ∃ e, x = .error e := by
  cases x <;> simp [isErr]

theorem groupSum_err (d : LDist) :
    ∀ g : LDist, g.map Prod.fst = grouped_init.map Prod.fst →
    (∃ pr ∈ d, isCoarse (map_to_main_category pr.1) = false) →
    isErr (groupSum g d) = true := by
  induction d with
  | nil => intro g _ h; simp at h
  | cons hd tl ih =>
    intro g hkeys h
    obtain ⟨label, prob⟩ := hd
    by_cases hc : isCoarse (map_to_main_category label) = true
    · have htl : ∃ pr ∈ tl, isCoarse (map_to_main_category pr.1) = false := by
        rcases h with ⟨pr, hpr, hpc⟩
        rcases List.mem_cons.mp hpr with rfl | hmem
        · exact absurd hpc (by simp [hc])
        · exact ⟨pr, hmem, hpc⟩
      have hmem : map_to_main_category label ∈ g.map Prod.fst := by
        rw [hkeys]; exact (mem_grouped_init_keys _).mpr hc
      obtain ⟨g2, hg2, _, hkeys2⟩ := bucketAdd_ok_of_mem g _ prob hmem
      simp [groupSum, hg2]
      exact ih g2 (hkeys2.trans hkeys) htl
    · have hmem : ¬ map_to_main_category label ∈ g.map Prod.fst := by
        rw [hkeys]
        intro hmm
        exact hc ((mem_grouped_init_keys _).mp hmm)
      simp [groupSum, bucketAdd_error_of_not_mem g _ prob hmem, isErr]

theorem map_to_main_category_cases (s : String) :
    map_to_main_category s = "Confirmed Planet" ∨
    map_to_main_category s = "Candidate Planet" ∨
    map_to_main_category s = "False Positive (Not a Planet)" ∨
    map_to_main_category s = s := by
  simp only [map_to_main_category]
  split_ifs <;> simp

theorem predictHandler_valid (m : Model) (sc : Option Scaler)
    (enc : Option LabelEncoder) (data : List (String × JVal)) (o t r : ℚ)
    (h : validBody data o t r) :
    predictHandler (some m) sc enc (some data) =
      match confidenceOf m enc (scaledFeatures sc ⟨o, t, r⟩) with
      | .error e => .serverError ("Prediction error: " ++ e)
      | .ok confidence =>
        .ok { prediction := predictionLabelOf enc (m.predict (scaledFeatures sc ⟨o, t, r⟩))
              input := ⟨o, t, r⟩
              confidence := if confTruthy confidence then confidence else none } := by
  obtain ⟨h1, h2, h3, h4, h5, h6, h7, h8, h9, h10⟩ := h
  simp only [predictHandler, h1, h2, h3, h4, h5, h6, h7, pyFloat,
    Bool.not_true, Bool.false_eq_true, if_false,
    if_neg (not_le.mpr h8), if_neg (not_le.mpr h9), if_neg (not_le.mpr h10)]

theorem predictHandler_noProba (m : Model) (sc : Option Scaler)
    (enc : Option LabelEncoder) (data : List (String × JVal)) (o t r : ℚ)
    (hp : m.predict_proba = none) (h : validBody data o t r) :
    predictHandler (some m) sc enc (some data) =
      .ok ⟨predictionLabelOf enc (m.predict (scaledFeatures sc ⟨o, t, r⟩)),
           ⟨o, t, r⟩, none⟩ := by
  rw [predictHandler_valid m sc enc data o t r h]
  simp only [confidenceOf, hp, confTruthy, Bool.false_eq_true, if_false]

/-! ## Claim theorems -/

/-- C2: the category decision function uppercases and trims the raw label and
applies the keyword rules in the spec's exact priority order with first match
winning, falling through to the original label; in particular any label whose
normalized form contains "CONFIRMED" (such as one also containing "FALSE")
classifies as "Confirmed Planet". -/
theorem map_to_main_category_matches_spec :
    (∀ s, map_to_main_category s = specCategory s) ∧
    (∀ s, strContains (upperStrip s) "CONFIRMED" = true →
      map_to_main_category s = "Confirmed Planet") := by
  constructor
  · intro s
    simp only [map_to_main_category, specCategory, List.any_cons, List.any_nil,
      Bool.or_false, Bool.or_assoc]
  · intro s h
    simp only [map_to_main_category]
    rw [if_pos h]

/-- C2 witness: the label "CONFIRMED FALSE" contains both "CONFIRMED" and
"FALSE" after normalization and classifies as "Confirmed Planet". -/
theorem map_to_main_category_matches_spec_witness :
    strContains (upperStrip "CONFIRMED FALSE") "CONFIRMED" = true ∧
    strContains (upperStrip "CONFIRMED FALSE") "FALSE" = true ∧
    map_to_main_category "CONFIRMED FALSE" = "Confirmed Planet" :=
  ⟨by decide, by decide,
   map_to_main_category_matches_spec.2 "CONFIRMED FALSE" (by decide)⟩

/-- C9: the category decision function is idempotent — applying it to its own
output returns that output unchanged, both on the three coarse categories and
on pass-through labels. -/
theorem map_to_main_category_idem (s : String) :
    map_to_main_category (map_to_main_category s) = map_to_main_category s := by
  rcases map_to_main_category_cases s with h | h | h | h
  · rw [h]; decide
  · rw [h]; decide
  · rw [h]; decide
  · rw [h]; exact h

/-- C4: with no classifier loaded, every `/predict` request — whatever its
body, even absent or invalid — yields the server-side 500 whose message
mentions the model, before any other processing. -/
theorem predict_model_unavailable :
    (∀ (sc : Option Scaler) (enc : Option LabelEncoder)
      (body : Option (List (String × JVal))),
      predictHandler none sc enc body =
        .serverError "Model not loaded. Please ensure model.pkl exists.") ∧
    strContains "Model not loaded. Please ensure model.pkl exists." "model" = true :=
  ⟨fun _ _ _ => rfl, by decide⟩

/-- C8: with fixed loaded artifacts, handling a request mutates no server
state, and two successive calls with identical bodies return identical
responses (hence identical prediction and confidence). -/
theorem predict_deterministic_stateless (st : ServerState)
    (body : Option (List (String × JVal))) :
    (handleRequest st body).2 = st ∧
    (handleRequest ((handleRequest st body).2) body).1 = (handleRequest st body).1 :=
  ⟨rfl, rfl⟩

/-- C3: for a detailed distribution summing to 1 in which every raw label is
grouped into one of the three coarse buckets (none reaches the pass-through
fallback), the aggregation succeeds, produces exactly the three coarse
buckets, and their values also sum to 1. -/
theorem grouped_confidence_preserves_mass (detailed : LDist)
    (h1 : distSum detailed = 1) (h2 : allCoarse detailed = true) :
    (groupedConfidence detailed).map (List.map Prod.fst) =
      .ok ["Confirmed Planet", "Candidate Planet",
           "False Positive (Not a Planet)"] ∧
    groupedSumOf detailed = .ok 1 := by
  have hmem : ∀ pr ∈ detailed, map_to_main_category pr.1 ∈ grouped_init.map Prod.fst := by
    intro pr hpr
    rw [mem_grouped_init_keys]
    have := List.all_eq_true.mp h2 pr hpr
    simpa using this
  obtain ⟨g', hg', hsum, hkeys⟩ := groupSum_ok detailed grouped_init hmem
  have hinit : distSum grouped_init = 0 := by
    simp [distSum, grouped_init]
  have hok : groupedConfidence detailed = .ok g' := hg'
  constructor
  · rw [hok, Except.map, hkeys]
    rfl
  · rw [groupedSumOf, hok, Except.map, hsum, hinit, h1]
    norm_num

/-- C3 witness: a concrete two-label distribution summing to 1 with no
fallback label aggregates to the three buckets summing to 1. -/
theorem grouped_confidence_preserves_mass_witness :
    distSum dW = 1 ∧ allCoarse dW = true ∧
    (groupedConfidence dW).map (List.map Prod.fst) =
      .ok ["Confirmed Planet", "Candidate Planet",
           "False Positive (Not a Planet)"] ∧
    groupedSumOf dW = .ok 1 :=
  ⟨by with_unfolding_all rfl, by decide,
   (grouped_confidence_preserves_mass dW (by with_unfolding_all rfl) (by decide)).1,
   (grouped_confidence_preserves_mass dW (by with_unfolding_all rfl) (by decide)).2⟩

/-- C1 counterexample: a fine-grained distribution whose only raw label
"ZZZ" matches none of the three keyword groups (the decision function
passes it through unchanged); the request does NOT complete successfully —
the bucket update raises `KeyError`, the generic exception handler catches
it, and the handler returns a 500, not a lossy grouped distribution. -/
theorem fallthrough_label_completes_cex :
    map_to_main_category "ZZZ" = "ZZZ" ∧
    isCoarse "ZZZ" = false ∧
    predictHandler (some mProbaX) none (some encX) (some dEx) =
      .serverError "Prediction error: ZZZ" :=
  ⟨by decide, by decide, by with_unfolding_all rfl⟩

/-- C1 (amended): when some raw label of the detailed distribution matches
none of the three keyword groups, its mass is indeed added to no bucket —
but the aggregation raises a `KeyError` on the pass-through key, so the
request fails with a server-side 500 ("Prediction error: ...") instead of
completing with an under-summing grouped distribution. -/
theorem grouped_confidence_fallthrough_errors :
    (∀ detailed : LDist, allCoarse detailed = false →
      isErr (groupedConfidence detailed) = true) ∧
    (∀ (m : Model) (sc : Option Scaler) (enc : LabelEncoder)
      (pf : Features → List ℚ) (data : List (String × JVal)) (o t r : ℚ),
      m.predict_proba = some pf → validBody data o t r →
      allCoarse (detailedConfidenceOf enc (pf (scaledFeatures sc ⟨o, t, r⟩))) = false →
      isServerError (predictHandler (some m) sc (some enc) (some data)) = true) := by
  have agg : ∀ detailed : LDist, allCoarse detailed = false →
      isErr (groupedConfidence detailed) = true := by
    intro detailed hall
    have hex : ∃ pr ∈ detailed, isCoarse (map_to_main_category pr.1) = false := by
      by_contra hno
      push_neg at hno
      have htrue : allCoarse detailed = true := by
        apply List.all_eq_true.mpr
        intro pr hpr
        simpa using hno pr hpr
      rw [htrue] at hall
      cases hall
    exact groupSum_err detailed grouped_init rfl hex
  refine ⟨agg, ?_⟩
  intro m sc enc pf data o t r hp h hall
  rw [predictHandler_valid m sc (some enc) data o t r h]
  simp only [confidenceOf, hp]
  obtain ⟨e, he⟩ := (isErr_iff _).mp (agg _ hall)
  rw [he]
  rfl

/-- C1 witness: concrete artifacts whose decoded label "ZZZ" falls through,
exercising both the aggregation-level error and the pipeline-level 500. -/
theorem grouped_confidence_fallthrough_errors_witness :
    allCoarse [("ZZZ", (1 : ℚ))] = false ∧
    isErr (groupedConfidence [("ZZZ", (1 : ℚ))]) = true ∧
    mProbaX.predict_proba = some pfX ∧
    validBody dEx 1 2 3 ∧
    allCoarse (detailedConfidenceOf encX (pfX (scaledFeatures none ⟨1, 2, 3⟩))) = false ∧
    isServerError (predictHandler (some mProbaX) none (some encX) (some dEx)) = true :=
  ⟨by decide, grouped_confidence_fallthrough_errors.1 _ (by decide), rfl,
   by with_unfolding_all decide,
   by with_unfolding_all decide,
   grouped_confidence_fallthrough_errors.2 mProbaX none encX pfX dEx 1 2 3 rfl
     (by with_unfolding_all decide) (by with_unfolding_all decide)⟩

/-- C5 counterexample: a request body whose `orbital_period` field is
present but is a JSON null — `float(None)` raises `TypeError`, which
`except ValueError` does not catch — is answered with a server-side 500
("Prediction error: ..."), not a validation 400, refuting "a present field
not coercible to a floating-point number fails [each failure returning
HTTP 400]". -/
theorem noncoercible_field_not_400_cex :
    hasField dNull "orbital_period" = true ∧
    getField dNull "orbital_period" =
      JVal.nonNum "float() argument must be a string or a real number" ∧
    predictHandler (some mEx) none none (some dNull) =
      .serverError
        "Prediction error: float() argument must be a string or a real number" ∧
    isServerError (predictHandler (some mEx) none none (some dNull)) = true :=
  ⟨by decide, by decide, by with_unfolding_all rfl, by with_unfolding_all rfl⟩

/-- C5 (amended): with the classifier loaded, validation runs before
inference and in this order, each outcome the same for every classifier:
an empty or absent body fails first with a 400 (NoData, before any
field-level check); then an absent required field fails with a 400 naming
that field, fields checked in the order orbital_period, transit_duration,
planetary_radius; then each present field is coerced with `float` in that
same order, before any positivity check — a coercion raising `ValueError`
(a non-numeric string) yields a 400 "Invalid input value: ...", while one
raising `TypeError` (a JSON null, array or object) yields a 500
"Prediction error: ...", not a 400; then any coerced value ≤ 0 fails with
a 400 whose message mentions "positive". -/
theorem predict_validation_order (m : Model) (sc : Option Scaler)
    (enc : Option LabelEncoder) :
    (predictHandler (some m) sc enc none = .clientError "No data provided") ∧
    (predictHandler (some m) sc enc (some []) = .clientError "No data provided") ∧
    (∀ data : List (String × JVal), data.isEmpty = false →
      hasField data "orbital_period" = false →
      predictHandler (some m) sc enc (some data) =
        .clientError "Missing required field: orbital_period") ∧
    (∀ data : List (String × JVal), data.isEmpty = false →
      hasField data "orbital_period" = true →
      hasField data "transit_duration" = false →
      predictHandler (some m) sc enc (some data) =
        .clientError "Missing required field: transit_duration") ∧
    (∀ data : List (String × JVal), data.isEmpty = false →
      hasField data "orbital_period" = true →
      hasField data "transit_duration" = true →
      hasField data "planetary_radius" = false →
      predictHandler (some m) sc enc (some data) =
        .clientError "Missing required field: planetary_radius") ∧
    (∀ (data : List (String × JVal)) (s : String), data.isEmpty = false →
      hasField data "orbital_period" = true →
      hasField data "transit_duration" = true →
      hasField data "planetary_radius" = true →
      getField data "orbital_period" = JVal.bad s →
      predictHandler (some m) sc enc (some data) =
        .clientError ("Invalid input value: " ++ s)) ∧
    (∀ (data : List (String × JVal)) (q : ℚ) (s : String), data.isEmpty = false →
      hasField data "orbital_period" = true →
      hasField data "transit_duration" = true →
      hasField data "planetary_radius" = true →
      getField data "orbital_period" = JVal.num q →
      getField data "transit_duration" = JVal.bad s →
      predictHandler (some m) sc enc (some data) =
        .clientError ("Invalid input value: " ++ s)) ∧
    (∀ (data : List (String × JVal)) (q q2 : ℚ) (s : String), data.isEmpty = false →
      hasField data "orbital_period" = true →
      hasField data "transit_duration" = true →
      hasField data "planetary_radius" = true →
      getField data "orbital_period" = JVal.num q →
      getField data "transit_duration" = JVal.num q2 →
      getField data "planetary_radius" = JVal.bad s →
      predictHandler (some m) sc enc (some data) =
        .clientError ("Invalid input value: " ++ s)) ∧
    (∀ (data : List (String × JVal)) (s : String), data.isEmpty = false →
      hasField data "orbital_period" = true →
      hasField data "transit_duration" = true →
      hasField data "planetary_radius" = true →
      getField data "orbital_period" = JVal.nonNum s →
      predictHandler (some m) sc enc (some data) =
        .serverError ("Prediction error: " ++ s)) ∧
    (∀ (data : List (String × JVal)) (q : ℚ) (s : String), data.isEmpty = false →
      hasField data "orbital_period" = true →
      hasField data "transit_duration" = true →
      hasField data "planetary_radius" = true →
      getField data "orbital_period" = JVal.num q →
      getField data "transit_duration" = JVal.nonNum s →
      predictHandler (some m) sc enc (some data) =
        .serverError ("Prediction error: " ++ s)) ∧
    (∀ (data : List (String × JVal)) (q q2 : ℚ) (s : String), data.isEmpty = false →
      hasField data "orbital_period" = true →
      hasField data "transit_duration" = true →
      hasField data "planetary_radius" = true →
      getField data "orbital_period" = JVal.num q →
      getField data "transit_duration" = JVal.num q2 →
      getField data "planetary_radius" = JVal.nonNum s →
      predictHandler (some m) sc enc (some data) =
        .serverError ("Prediction error: " ++ s)) ∧
    (∀ (data : List (String × JVal)) (o t r : ℚ), data.isEmpty = false →
      hasField data "orbital_period" = true →
      hasField data "transit_duration" = true →
      hasField data "planetary_radius" = true →
      getField data "orbital_period" = JVal.num o →
      getField data "transit_duration" = JVal.num t →
      getField data "planetary_radius" = JVal.num r →
      o ≤ 0 →
      predictHandler (some m) sc enc (some data) =
        .clientError "Orbital period must be positive") ∧
    (∀ (data : List (String × JVal)) (o t r : ℚ), data.isEmpty = false →
      hasField data "orbital_period" = true →
      hasField data "transit_duration" = true →
      hasField data "planetary_radius" = true →
      getField data "orbital_period" = JVal.num o →
      getField data "transit_duration" = JVal.num t →
      getField data "planetary_radius" = JVal.num r →
      0 < o → t ≤ 0 →
      predictHandler (some m) sc enc (some data) =
        .clientError "Transit duration must be positive") ∧
    (∀ (data : List (String × JVal)) (o t r : ℚ), data.isEmpty = false →
      hasField data "orbital_period" = true →
      hasField data "transit_duration" = true →
      hasField data "planetary_radius" = true →
      getField data "orbital_period" = JVal.num o →
      getField data "transit_duration" = JVal.num t →
      getField data "planetary_radius" = JVal.num r →
      0 < o → 0 < t → r ≤ 0 →
      predictHandler (some m) sc enc (some data) =
        .clientError "Planetary radius must be positive") ∧
    strContains "Orbital period must be positive" "positive" = true ∧
    strContains "Transit duration must be positive" "positive" = true ∧
    strContains "Planetary radius must be positive" "positive" = true := by
  refine ⟨rfl, rfl, ?_, ?_, ?_, ?_, ?_, ?_, ?_, ?_, ?_, ?_, ?_, ?_,
    by decide, by decide, by decide⟩
  · intro data h1 h2
    simp only [predictHandler, h1, h2, Bool.not_false, Bool.false_eq_true, if_false, if_true]
  · intro data h1 h2 h3
    simp only [predictHandler, h1, h2, h3, Bool.not_true, Bool.not_false,
      Bool.false_eq_true, if_false, if_true]
  · intro data h1 h2 h3 h4
    simp only [predictHandler, h1, h2, h3, h4, Bool.not_true, Bool.not_false,
      Bool.false_eq_true, if_false, if_true]
  · intro data s h1 h2 h3 h4 h5
    simp only [predictHandler, h1, h2, h3, h4, h5, pyFloat, Bool.not_true,
      Bool.false_eq_true, if_false]
  · intro data q s h1 h2 h3 h4 h5 h6
    simp only [predictHandler, h1, h2, h3, h4, h5, h6, pyFloat, Bool.not_true,
      Bool.false_eq_true, if_false]
  · intro data q q2 s h1 h2 h3 h4 h5 h6 h7
    simp only [predictHandler, h1, h2, h3, h4, h5, h6, h7, pyFloat, Bool.not_true,
      Bool.false_eq_true, if_false]
  · intro data s h1 h2 h3 h4 h5
    simp only [predictHandler, h1, h2, h3, h4, h5, pyFloat, Bool.not_true,
      Bool.false_eq_true, if_false]
  · intro data q s h1 h2 h3 h4 h5 h6
    simp only [predictHandler, h1, h2, h3, h4, h5, h6, pyFloat, Bool.not_true,
      Bool.false_eq_true, if_false]
  · intro data q q2 s h1 h2 h3 h4 h5 h6 h7
    simp only [predictHandler, h1, h2, h3, h4, h5, h6, h7, pyFloat, Bool.not_true,
      Bool.false_eq_true, if_false]
  · intro data o t r h1 h2 h3 h4 h5 h6 h7 ho
    simp only [predictHandler, h1, h2, h3, h4, h5, h6, h7, pyFloat, Bool.not_true,
      Bool.false_eq_true, if_false, if_pos ho]
  · intro data o t r h1 h2 h3 h4 h5 h6 h7 ho ht
    simp only [predictHandler, h1, h2, h3, h4, h5, h6, h7, pyFloat, Bool.not_true,
      Bool.false_eq_true, if_false, if_neg (not_le.mpr ho), if_pos ht]
  · intro data o t r h1 h2 h3 h4 h5 h6 h7 ho ht hr
    simp only [predictHandler, h1, h2, h3, h4, h5, h6, h7, pyFloat, Bool.not_true,
      Bool.false_eq_true, if_false, if_neg (not_le.mpr ho), if_neg (not_le.mpr ht),
      if_pos hr]

/-- C5 witness: the spec's negative-period example body is rejected with a
400 mentioning "positive"; a body missing `transit_duration` is rejected
naming that field; a non-numeric string field yields the 400
"Invalid input value: ..."; and a null field yields the 500
"Prediction error: ...". -/
theorem predict_validation_order_witness :
    dNeg.isEmpty = false ∧
    hasField dNeg "orbital_period" = true ∧
    hasField dNeg "transit_duration" = true ∧
    hasField dNeg "planetary_radius" = true ∧
    getField dNeg "orbital_period" = JVal.num (-5) ∧
    getField dNeg "transit_duration" = JVal.num 2 ∧
    getField dNeg "planetary_radius" = JVal.num 1 ∧
    (-5 : ℚ) ≤ 0 ∧
    predictHandler (some mEx) none none (some dNeg) =
      .clientError "Orbital period must be positive" ∧
    predictHandler (some mEx) none none
        (some [("orbital_period", JVal.num 1)]) =
      .clientError "Missing required field: transit_duration" ∧
    getField dBadStr "orbital_period" =
      JVal.bad "could not convert string to float: abc" ∧
    predictHandler (some mEx) none none (some dBadStr) =
      .clientError ("Invalid input value: " ++ "could not convert string to float: abc") ∧
    getField dNull "orbital_period" =
      JVal.nonNum "float() argument must be a string or a real number" ∧
    predictHandler (some mEx) none none (some dNull) =
      .serverError ("Prediction error: " ++ "float() argument must be a string or a real number") := by
  obtain ⟨c1, c2, c3, c4, c5, c6, c7, c8, c9, c10, c11, c12, c13, c14, c15, c16, c17⟩ :=
    predict_validation_order mEx none none
  exact ⟨rfl, by decide, by decide, by decide, by decide, by decide, by decide,
    by with_unfolding_all decide,
    c12 dNeg (-5) 2 1 rfl (by decide) (by decide) (by decide) (by decide)
      (by decide) (by decide) (by with_unfolding_all decide),
    c4 [("orbital_period", JVal.num 1)] rfl (by decide) (by decide),
    by decide,
    c6 dBadStr "could not convert string to float: abc" rfl (by decide)
      (by decide) (by decide) (by decide),
    by decide,
    c9 dNull "float() argument must be a string or a real number" rfl
      (by decide) (by decide) (by decide) (by decide)⟩

/-- C6: for every valid request, when the classifier has no probability
output (`predict_proba` absent, an `AttributeError`-style capability gap),
the request still succeeds with a 200 whose body holds only the prediction
and the echoed input — the confidence object is omitted and no error is
raised. -/
theorem predict_no_proba_omits_confidence (m : Model) (sc : Option Scaler)
    (enc : Option LabelEncoder) (data : List (String × JVal)) (o t r : ℚ)
    (hp : m.predict_proba = none) (h : validBody data o t r) :
    predictHandler (some m) sc enc (some data) =
      .ok ⟨predictionLabelOf enc (m.predict (scaledFeatures sc ⟨o, t, r⟩)),
           ⟨o, t, r⟩, none⟩ :=
  predictHandler_noProba m sc enc data o t r hp h

/-- C6 witness: a concrete classifier with no `predict_proba` yields a 200
with no confidence object on a concrete valid body. -/
theorem predict_no_proba_omits_confidence_witness :
    mEx.predict_proba = none ∧
    validBody dEx 1 2 3 ∧
    predictHandler (some mEx) none none (some dEx) =
      .ok ⟨predictionLabelOf none (mEx.predict (scaledFeatures none ⟨1, 2, 3⟩)),
           ⟨1, 2, 3⟩, none⟩ :=
  ⟨rfl, by with_unfolding_all decide,
   predict_no_proba_omits_confidence mEx none none dEx 1 2 3 rfl
     (by with_unfolding_all decide)⟩

/-- C7: when no label encoder is loaded, the prediction label is obtained
from the static index→coarse-category dict (0 → False Positive, 1 →
Candidate, 2 → Confirmed) with default "Unknown", not from the keyword
decision function; in particular every successful response's prediction
equals that static lookup of the predicted index. -/
theorem predict_no_encoder_static_mapping :
    (∀ i : Int, predictionLabelOf none i = (CLASS_LABELS i).getD "Unknown") ∧
    CLASS_LABELS 0 = some "False Positive (Not a Planet)" ∧
    CLASS_LABELS 1 = some "Candidate Planet" ∧
    CLASS_LABELS 2 = some "Confirmed Planet" ∧
    (∀ (m : Model) (sc : Option Scaler) (data : List (String × JVal))
      (o t r : ℚ) (res : PredictResult),
      validBody data o t r →
      predictHandler (some m) sc none (some data) = .ok res →
      res.prediction =
        (CLASS_LABELS (m.predict (scaledFeatures sc ⟨o, t, r⟩))).getD "Unknown") := by
  refine ⟨fun _ => rfl, rfl, rfl, rfl, ?_⟩
  intro m sc data o t r res h hres
  rw [predictHandler_valid m sc none data o t r h] at hres
  rcases hconf : confidenceOf m none (scaledFeatures sc ⟨o, t, r⟩) with e | confidence
  · rw [hconf] at hres
    cases hres
  · rw [hconf] at hres
    cases hres
    rfl

/-- C7 witness: a classifier predicting index 1 with no label encoder yields
prediction "Candidate Planet", the static mapping's value at 1. -/
theorem predict_no_encoder_static_mapping_witness :
    validBody dEx 1 2 3 ∧
    predictHandler (some mEx) none none (some dEx) =
      .ok ⟨"Candidate Planet", ⟨1, 2, 3⟩, none⟩ ∧
    (⟨"Candidate Planet", ⟨1, 2, 3⟩, none⟩ : PredictResult).prediction =
      (CLASS_LABELS (mEx.predict (scaledFeatures none ⟨1, 2, 3⟩))).getD "Unknown" :=
  ⟨by with_unfolding_all decide, by with_unfolding_all rfl,
   predict_no_encoder_static_mapping.2.2.2.2 mEx none dEx 1 2 3
     ⟨"Candidate Planet", ⟨1, 2, 3⟩, none⟩
     (by with_unfolding_all decide) (by with_unfolding_all rfl)⟩

/-- C10: with no label encoder, a predicted class index outside {0, 1, 2} is
absent from the static dict, so `dict.get` yields the default "Unknown"; with
a classifier lacking probability output this still produces a 200 whose
prediction field is "Unknown" — not an error, not a coarse category, not a
raw label. -/
theorem predict_unknown_index (i : Int) (m : Model) (sc : Option Scaler)
    (data : List (String × JVal)) (o t r : ℚ)
    (hi0 : i ≠ 0) (hi1 : i ≠ 1) (hi2 : i ≠ 2)
    (hp : m.predict_proba = none) (h : validBody data o t r)
    (hpred : m.predict (scaledFeatures sc ⟨o, t, r⟩) = i) :
    CLASS_LABELS i = none ∧
    predictionLabelOf none i = "Unknown" ∧
    predictHandler (some m) sc none (some data) =
      .ok ⟨"Unknown", ⟨o, t, r⟩, none⟩ := by
  have hcl : CLASS_LABELS i = none := by
    simp only [CLASS_LABELS, if_neg hi0, if_neg hi1, if_neg hi2]
  have hlab : predictionLabelOf none i = "Unknown" := by
    simp only [predictionLabelOf, hcl, Option.getD_none]
  refine ⟨hcl, hlab, ?_⟩
  rw [predictHandler_noProba m sc none data o t r hp h, hpred, hlab]

/-- C10 witness: a classifier predicting index 5 with no encoder and no
probability output yields a 200 whose prediction is "Unknown". -/
theorem predict_unknown_index_witness :
    (5 : Int) ≠ 0 ∧ (5 : Int) ≠ 1 ∧ (5 : Int) ≠ 2 ∧
    mFive.predict_proba = none ∧ validBody dEx 1 2 3 ∧
    mFive.predict (scaledFeatures none ⟨1, 2, 3⟩) = 5 ∧
    CLASS_LABELS 5 = none ∧
    predictionLabelOf none 5 = "Unknown" ∧
    predictHandler (some mFive) none none (some dEx) =
      .ok ⟨"Unknown", ⟨1, 2, 3⟩, none⟩ := by
  obtain ⟨h1, h2, h3⟩ :=
    predict_unknown_index 5 mFive none dEx 1 2 3 (by decide) (by decide) (by decide)
      rfl (by with_unfolding_all decide) rfl
  exact ⟨by decide, by decide, by decide, rfl, by with_unfolding_all decide, rfl,
    h1, h2, h3⟩
